import Mathlib

/-!
Verification of the Pipecat-Starter-Kit dialogue-flow bots.

This file gives a shallow embedding of the two bot programs of the
repository and proves the behavioural claims of the specification
against it.

Part 1 embeds `src/bots/shawarma_bot.py`: the menu data, the
`OrderManager` session record and its operations, and the tool handlers
of the shawarma order flow.  The arbitrary-precision integers of Python are
modelled as `Int`; Python exceptions (`raise` / `try` ... `except`) are
modelled with `Except String`; methods that mutate `self` are modelled
as state-passing functions `OrderManager → OrderManager × _` returning
the state at exit (at a `raise`, the state at the moment the exception
leaves the method).

Part 2 embeds `src/bots/bot.py`: the `OpenAILLMContext` boundary
(transcript plus advertised tool set), the `IntakeProcessor` tool
handlers with their staged `set_tools` transitions, and the external
data-lookup processors (weather / recipe / news), whose HTTP calls are
abstracted to an `ApiOutcome` value (either an exception during the
request, or a status code plus parsed body).
-/

/-- First-match lookup in an association list, mirroring a Python dict
access on dicts whose keys are unique (insertion order preserved). -/
def alookup {α : Type} : List (String × α) → String → Option α
  | [], _ => none
  | (k, v) :: rest, key => if k = key then some v else alookup rest key

/-- Decidable equality for `Except`, used to evaluate the embedded
operations on concrete inputs. -/
instance {ε α : Type} [DecidableEq ε] [DecidableEq α] : DecidableEq (Except ε α) := fun x y =>
  match x, y with
  | .ok a, .ok b =>
    if h : a = b then isTrue (h ▸ rfl) else isFalse (fun hc => h (Except.ok.inj hc))
  | .error a, .error b =>
    if h : a = b then isTrue (h ▸ rfl) else isFalse (fun hc => h (Except.error.inj hc))
  | .ok _, .error _ => isFalse (fun hc => Except.noConfusion hc)
  | .error _, .ok _ => isFalse (fun hc => Except.noConfusion hc)

/-- One entry of `SHAWARMA_MENU` (shawarma_bot.py lines 47-63). -/
structure MenuItem where
  name : String
  price : Int
  description : String
deriving DecidableEq, Repr

/-- One entry of `EXTRAS` (shawarma_bot.py lines 66-71). -/
structure ExtraItem where
  name : String
  price : Int
deriving DecidableEq, Repr

/-- The shawarma menu with prices (shawarma_bot.py lines 47-63). -/
def SHAWARMA_MENU : List (String × MenuItem) :=
  [ ("chicken", { name := "شاورما فراخ", price := 65,
                  description := "شاورما دجاج مشوية على الفحم مع صوص طحينة وخضار" }),
    ("meat", { name := "شاورما لحمة", price := 85,
               description := "شاورما لحم بقري مشوي على الفحم مع صوص طحينة وخضار" }),
    ("mix", { name := "شاورما مكس", price := 75,
              description := "شاورما مشكلة (لحم ودجاج) مع صوص طحينة وخضار" }) ]

/-- The extras options (shawarma_bot.py lines 66-71). -/
def EXTRAS : List (String × ExtraItem) :=
  [ ("fries", { name := "بطاطس", price := 25 }),
    ("cheese", { name := "جبنة إضافية", price := 10 }),
    ("garlic_sauce", { name := "صوص ثوم", price := 5 }),
    ("tahini_extra", { name := "صوص طحينة إضافي", price := 5 }) ]

/-- An order line item as actually built by `add_item` (shawarma_bot.py
line 166): the dict literal has exactly the keys `type`, `quantity` and
`extras` (the `price` key of the `OrderItem` TypedDict is never set). -/
structure OrderItem where
  type : String
  quantity : Int
  extras : List String
deriving DecidableEq, Repr

/-- The `Order` TypedDict (shawarma_bot.py lines 93-99). -/
structure Order where
  items : List OrderItem
  address : String
  phone : String
  total : Int
  special_instructions : Option String
  delivery_notes : Option String
deriving DecidableEq, Repr

/-- The `OrderManager` state (shawarma_bot.py lines 137-139). -/
structure OrderManager where
  current_order : Option Order
  next_order_id : Int
deriving DecidableEq, Repr

/-- Method `OrderManager.create_new_order` (shawarma_bot.py lines 141-151). -/
def OrderManager.create_new_order (om : OrderManager) : OrderManager × Order :=
  let o : Order :=
    { items := [], address := "", phone := "", total := 0,
      special_instructions := none, delivery_notes := none }
  ({ om with current_order := some o }, o)

/-- Sum of the prices of the known extras of an item: the generator
`sum(EXTRAS[extra]["price"] for extra in item["extras"] if extra in EXTRAS)`
of `calculate_item_price` (shawarma_bot.py lines 176-178).  Extras not
in the `EXTRAS` table are skipped by the `if` filter. -/
def extras_price (extras : List String) : Int :=
  (extras.filterMap (fun e => (alookup EXTRAS e).map (fun x => x.price))).sum

/-- Method `OrderManager.calculate_item_price` (shawarma_bot.py lines 173-179):
base price of the menu item times the quantity, plus the extras sum.
Indexing `SHAWARMA_MENU[item["type"]]` raises `KeyError` for a type not
on the menu. -/
def OrderManager.calculate_item_price (item : OrderItem) : Except String Int :=
  match alookup SHAWARMA_MENU item.type with
  | none => .error ("KeyError: " ++ item.type)
  | some mi => .ok (mi.price * item.quantity + extras_price item.extras)

/-- The accumulation loop of `_update_total` (shawarma_bot.py lines
186-188): item prices are added in list order; a `KeyError` from
`calculate_item_price` aborts the loop at the first offending item. -/
def sumItemPrices : List OrderItem → Except String Int
  | [] => .ok 0
  | i :: rest =>
    match OrderManager.calculate_item_price i with
    | .error e => .error e
    | .ok p =>
      match sumItemPrices rest with
      | .error e => .error e
      | .ok s => .ok (p + s)

/-- Method `OrderManager._update_total` (shawarma_bot.py lines 181-191):
returns 0 with no state change when there is no current order;
otherwise recomputes the total from all items and stores it.  A raise
inside the loop leaves the stored total unchanged (the assignment to
`self.current_order["total"]` comes after the loop). -/
def OrderManager.update_total (om : OrderManager) : OrderManager × Except String Int :=
  match om.current_order with
  | none => (om, .ok 0)
  | some o =>
    match sumItemPrices o.items with
    | .error e => (om, .error e)
    | .ok t => ({ om with current_order := some { o with total := t } }, .ok t)

/-- The list append `self.current_order["items"].append(new_item)` of
`add_item` (shawarma_bot.py line 168).  When `add_item` reaches this
point the current order is always present. -/
def OrderManager.append_item (om : OrderManager) (it : OrderItem) : OrderManager :=
  match om.current_order with
  | none => om
  | some o => { om with current_order := some { o with items := o.items ++ [it] } }

/-- Method `OrderManager.add_item` (shawarma_bot.py lines 153-171): creates a
fresh order if none is active, validates the item type against
`SHAWARMA_MENU` (raising `ValueError` otherwise -- note that the order
creation has already happened at that point), appends the new item dict
(extras are stored without validation), and recomputes the total. -/
def OrderManager.add_item (om : OrderManager) (item_type : String) (quantity : Int)
    (extras : List String) : OrderManager × Except String OrderItem :=
  let om0 := if om.current_order.isNone then (OrderManager.create_new_order om).1 else om
  match alookup SHAWARMA_MENU item_type with
  | none => (om0, .error ("Invalid item type: " ++ item_type))
  | some _ =>
    let new_item : OrderItem := { type := item_type, quantity := quantity, extras := extras }
    match OrderManager.update_total (OrderManager.append_item om0 new_item) with
    | (om2, .ok _) => (om2, .ok new_item)
    | (om2, .error e) => (om2, .error e)

/-- Method `OrderManager.set_delivery_info` (shawarma_bot.py lines 193-204):
raises `ValueError` when no order is active; stores the address and
phone; stores special instructions only when truthy (neither `None`
nor the empty string). -/
def OrderManager.set_delivery_info (om : OrderManager) (address phone : String)
    (special_instructions : Option String) : OrderManager × Except String Order :=
  match om.current_order with
  | none => (om, .error "No active order")
  | some o =>
    let o1 := { o with address := address, phone := phone }
    let o2 := match special_instructions with
      | some si => if si = "" then o1 else { o1 with special_instructions := some si }
      | none => o1
    ({ om with current_order := some o2 }, .ok o2)

/-- Method `OrderManager.add_delivery_notes` (shawarma_bot.py lines 206-212). -/
def OrderManager.add_delivery_notes (om : OrderManager) (notes : String) :
    OrderManager × Except String Order :=
  match om.current_order with
  | none => (om, .error "No active order")
  | some o =>
    let o1 := { o with delivery_notes := some notes }
    ({ om with current_order := some o1 }, .ok o1)

/-- Method `OrderManager.get_estimated_delivery_time` (shawarma_bot.py lines
214-220): 30 by default, otherwise 15 minutes base plus 5 per sandwich. -/
def OrderManager.get_estimated_delivery_time (om : OrderManager) : Int :=
  match om.current_order with
  | none => 30
  | some o =>
    if o.items = [] then 30
    else 15 + 5 * (o.items.map (fun i => i.quantity)).sum

/-- Method `OrderManager.clear_order` (shawarma_bot.py lines 290-292). -/
def OrderManager.clear_order (om : OrderManager) : OrderManager :=
  { om with current_order := none }

/-- The extras-name list comprehension of `get_order_summary`
(shawarma_bot.py line 241): `[EXTRAS[extra]["name"] for extra in extras]`.
Unlike `calculate_item_price`, there is no membership filter here, so an
extra outside the `EXTRAS` table raises `KeyError`. -/
def extras_names : List String → Except String (List String)
  | [] => .ok []
  | e :: rest =>
    match alookup EXTRAS e with
    | none => .error ("KeyError: " ++ e)
    | some x =>
      match extras_names rest with
      | .error err => .error err
      | .ok ns => .ok (x.name :: ns)

/-- One iteration of the items loop of `get_order_summary`
(shawarma_bot.py lines 230-245): menu-name lookup (may raise), item
price (may raise), then the extras clause and the price suffix. -/
def item_summary_line (item : OrderItem) : Except String String :=
  match alookup SHAWARMA_MENU item.type with
  | none => .error ("KeyError: " ++ item.type)
  | some mi =>
    match OrderManager.calculate_item_price item with
    | .error e => .error e
    | .ok p =>
      match extras_names item.extras with
      | .error e => .error e
      | .ok ns =>
        let base := mi.name ++ " عدد " ++ toString item.quantity
        let withExtras :=
          if item.extras = [] then base
          else base ++ " مع " ++ String.intercalate ", " ns
        .ok (withExtras ++ " - " ++ toString p ++ " جنيه")

/-- The items loop of `get_order_summary` over the whole list, in list
order, aborting at the first raising item. -/
def items_summaries : List OrderItem → Except String (List String)
  | [] => .ok []
  | i :: rest =>
    match item_summary_line i with
    | .error e => .error e
    | .ok s =>
      match items_summaries rest with
      | .error e => .error e
      | .ok ss => .ok (s :: ss)

/-- Method `OrderManager.get_order_summary` (shawarma_bot.py lines 222-264). -/
def OrderManager.get_order_summary (om : OrderManager) : Except String String :=
  match om.current_order with
  | none => .ok "لا يوجد طلب حالي"
  | some o =>
    if o.items = [] then .ok "لا يوجد طلب حالي"
    else
      match items_summaries o.items with
      | .error e => .error e
      | .ok parts0 =>
        let parts1 := parts0 ++ ["إجمالي الطلب: " ++ toString o.total ++ " جنيه"]
        let parts2 := if o.address ≠ "" then parts1 ++ ["العنوان: " ++ o.address] else parts1
        let parts3 := if o.phone ≠ "" then parts2 ++ ["رقم الهاتف: " ++ o.phone] else parts2
        let parts4 := match o.special_instructions with
          | some si => if si ≠ "" then parts3 ++ ["تعليمات خاصة: " ++ si] else parts3
          | none => parts3
        let parts5 := parts4 ++
          ["وقت التوصيل المتوقع: " ++ toString (OrderManager.get_estimated_delivery_time om)
            ++ " دقيقة"]
        .ok (String.intercalate "\n" parts5)

/-- The `OrderConfirmationResult` FlowResult (shawarma_bot.py lines 122-125). -/
structure OrderConfirmationResult where
  order : Order
  estimated_time : Int
  order_summary : String
deriving DecidableEq, Repr

/-- Method `OrderManager.finalize_order` (shawarma_bot.py lines 266-288): three
validation raises come first (no active order, no items, missing
delivery information); then `next_order_id` is consumed and incremented,
and only after that the summary is generated -- so a `KeyError` raised
while building the summary leaves the counter already incremented. -/
def OrderManager.finalize_order (om : OrderManager) :
    OrderManager × Except String OrderConfirmationResult :=
  match om.current_order with
  | none => (om, .error "No active order")
  | some o =>
    if o.items = [] then (om, .error "Order has no items")
    else if o.address = "" ∨ o.phone = "" then (om, .error "Missing delivery information")
    else
      let om1 := { om with next_order_id := om.next_order_id + 1 }
      let estimated_time := OrderManager.get_estimated_delivery_time om1
      match OrderManager.get_order_summary om1 with
      | .error e => (om1, .error e)
      | .ok summary =>
        (om1, .ok { order := o, estimated_time := estimated_time, order_summary := summary })

/-- Items of the active order (empty when no order is active); proof-side
accessor. -/
def OrderManager.order_items (om : OrderManager) : List OrderItem :=
  match om.current_order with
  | none => []
  | some o => o.items

/-- Stored total of the active order (0 when no order is active);
proof-side accessor. -/
def OrderManager.order_total (om : OrderManager) : Int :=
  match om.current_order with
  | none => 0
  | some o => o.total

/-- The `ErrorResult` FlowResult (shawarma_bot.py lines 128-130). -/
structure ErrorResult where
  status : String
  error : String
deriving DecidableEq, Repr

/-- The structured results the shawarma tool handlers can return
(shawarma_bot.py lines 102-130): every handler returns one of these, an
exception never escapes a handler. -/
inductive OrderFlowResult where
  | menuResult (menu : List (String × MenuItem))
  | extrasResult (extras : List (String × ExtraItem))
  | orderResult (item : OrderItem) (price : Int)
  | orderDetailsResult (address : String) (phone : String)
      (special_instructions : Option String) (estimated_time : Int)
  | errorResult (e : ErrorResult)
deriving DecidableEq, Repr

/-- The `get_menu` handler (shawarma_bot.py lines 300-307): its body
cannot raise, so the `except` branch is dead. -/
def get_menu : OrderFlowResult := .menuResult SHAWARMA_MENU

/-- The `get_extras` handler (shawarma_bot.py lines 310-317). -/
def get_extras : OrderFlowResult := .extrasResult EXTRAS

/-- The `select_shawarma_order` handler (shawarma_bot.py lines 320-335).
The `args` dict fields are modelled as already-extracted parameters
(`extras` defaulting to `[]` mirrors the `args.get` call).  Any exception
from `add_item` or `calculate_item_price` is caught at the handler
boundary and turned into an `ErrorResult` with status `"error"`. -/
def select_shawarma_order (om : OrderManager) (item_type : String) (quantity : Int)
    (extras : List String) : OrderManager × OrderFlowResult :=
  match OrderManager.add_item om item_type quantity extras with
  | (om1, .error _) => (om1, .errorResult { status := "error", error := "فشل في إضافة الطلب" })
  | (om1, .ok new_item) =>
    match OrderManager.calculate_item_price new_item with
    | .error _ => (om1, .errorResult { status := "error", error := "فشل في إضافة الطلب" })
    | .ok price => (om1, .orderResult new_item price)

/-- The module-level `set_delivery_info` handler (shawarma_bot.py lines
338-359): any exception (in particular the `ValueError` of
`OrderManager.set_delivery_info` when no order is active) is caught and
converted to an `ErrorResult` with status `"error"`. -/
def set_delivery_info (om : OrderManager) (address phone : String)
    (special_instructions : Option String) : OrderManager × OrderFlowResult :=
  match OrderManager.set_delivery_info om address phone special_instructions with
  | (om1, .error _) =>
    (om1, .errorResult { status := "error", error := "فشل في تأكيد معلومات التوصيل" })
  | (om1, .ok _) =>
    (om1, .orderDetailsResult address phone special_instructions
      (OrderManager.get_estimated_delivery_time om1))

/-!
Part 2: embedding of `src/bots/bot.py` and of the flow configuration of
`src/bots/shawarma_bot.py`.
-/

/-- A transcript message: an object with exactly a `role` and a
`content` field (bot.py handlers only ever append such dicts; the
persisted transcript format is an ordered array of these). -/
structure Message where
  role : String
  content : String
deriving DecidableEq, Repr

/-- JSON parameter schema of a tool function, as written literally in
the `set_tools` calls of bot.py (objects with properties and an
optional `required` list -- absent modelled as `[]` -- strings and
numbers with their descriptions, arrays of items). -/
inductive ParamSchema where
  | obj (properties : List (String × ParamSchema)) (required : List String)
  | str (description : String)
  | num (description : String)
  | arr (elems : ParamSchema)

/-- A tool function schema as advertised to the LLM. -/
structure ToolFunction where
  name : String
  description : String
  parameters : ParamSchema

/-- The `OpenAILLMContext` boundary used by `IntakeProcessor`: the
append-only transcript and the currently advertised tool set.
`add_message` appends, `set_tools` atomically replaces the whole set. -/
structure OpenAILLMContext where
  messages : List Message
  tools : List ToolFunction

/-- Method `context.add_message(...)`: appends to the end of the transcript. -/
def OpenAILLMContext.add_message (c : OpenAILLMContext) (m : Message) : OpenAILLMContext :=
  { c with messages := c.messages ++ [m] }

/-- Method `context.set_tools(...)`: replaces the advertised tool set with the
given new list. -/
def OpenAILLMContext.set_tools (c : OpenAILLMContext) (ts : List ToolFunction) :
    OpenAILLMContext :=
  { c with tools := ts }

/-- Modelled from the spec: the external accessor
`context.get_messages_for_persistent_storage()` (pipecat) returns the
ordered transcript as an array of role/content objects; its internals
are outside this repository, per the persisted-transcript
format clause of the spec. -/
def OpenAILLMContext.get_messages_for_persistent_storage (c : OpenAILLMContext) :
    List Message :=
  c.messages

/-- A frame queued into the pipeline by a handler
(`llm.queue_frame(OpenAILLMContextFrame(context), ...)`). -/
inductive QueuedFrame where
  | llmContext (c : OpenAILLMContext)

/-- The `save_conversation` tool schema (bot.py lines 303-314). -/
def save_conversation_tool : ToolFunction :=
  { name := "save_conversation",
    description := "Save the current conversation. Use this function to persist the current conversation to external storage.",
    parameters := .obj [] [] }

/-- The `verify_birthday` tool schema (bot.py lines 315-330). -/
def verify_birthday_tool : ToolFunction :=
  { name := "verify_birthday",
    description := "Use this function to verify the user has provided their correct birthday.",
    parameters := .obj
      [("birthday", .str "The user\x27s birthdate, including the year. The user can provide it in any format, ")]
      [] }

/-- The `get_weather` tool schema (bot.py lines 331-351). -/
def get_weather_tool : ToolFunction :=
  { name := "get_weather",
    description := "Get the current weather using coordinates",
    parameters := .obj
      [("lat", .num "Latitude of the location (-90 to 90)"),
       ("lon", .num "Longitude of the location (-180 to 180)")]
      ["lat", "lon"] }

/-- The `get_recipe` tool schema (bot.py lines 352-368). -/
def get_recipe_tool : ToolFunction :=
  { name := "get_recipe",
    description := "Get recipe instructions for a meal",
    parameters := .obj
      [("meal_name", .str "The name of the meal to get the recipe for")]
      ["meal_name"] }

/-- The `get_news` tool schema (bot.py lines 369-385). -/
def get_news_tool : ToolFunction :=
  { name := "get_news",
    description := "Get the latest news articles about a topic",
    parameters := .obj
      [("query", .str "The topic or keywords to search for in the news")]
      ["query"] }

/-- The `list_prescriptions` tool schema installed by `verify_birthday`
on success (bot.py lines 394-423): the single tool of the
prescriptions stage. -/
def list_prescriptions_tool : ToolFunction :=
  { name := "list_prescriptions",
    description := "Once the user has provided a list of their prescription medications, call this function.",
    parameters := .obj
      [("prescriptions", .arr (.obj
        [("medication", .str "The medication\x27s name"),
         ("dosage", .str "The prescription\x27s dosage")] []))]
      [] }

/-- The `list_allergies` tool schema installed by `start_prescriptions`
(bot.py lines 451-478): the single tool of the allergies stage. -/
def list_allergies_tool : ToolFunction :=
  { name := "list_allergies",
    description := "Once the user has provided a list of their allergies, call this function.",
    parameters := .obj
      [("allergies", .arr (.obj
        [("name", .str "What the user is allergic to")] []))]
      [] }

/-- The `list_conditions` tool schema installed by `start_allergies`
(bot.py lines 492-519): the single tool of the conditions stage. -/
def list_conditions_tool : ToolFunction :=
  { name := "list_conditions",
    description := "Once the user has provided a list of their medical conditions, call this function.",
    parameters := .obj
      [("conditions", .arr (.obj
        [("name", .str "The user\x27s medical condition")] []))]
      [] }

/-- The `list_visit_reasons` tool schema installed by `start_conditions`
(bot.py lines 531-558): the single tool of the visit-reasons stage. -/
def list_visit_reasons_tool : ToolFunction :=
  { name := "list_visit_reasons",
    description := "Once the user has provided a list of the reasons they are visiting a doctor today, call this function.",
    parameters := .obj
      [("visit_reasons", .arr (.obj
        [("name", .str "The user\x27s reason for visiting the doctor")] []))]
      [] }

/-- The initial tool set installed by `IntakeProcessor.__init__`
(bot.py lines 301-387): the declared tool set of the opening stage. -/
def intake_initial_tools : List ToolFunction :=
  [save_conversation_tool, verify_birthday_tool, get_weather_tool, get_recipe_tool,
   get_news_tool]

/-- The corrective system message appended when the provided birthday
does not match (bot.py lines 439-446). -/
def incorrect_birthday_message : Message :=
  { role := "system",
    content := "The user provided an incorrect birthday. Ask them for their birthday again. When they answer, call the verify_birthday function." }

/-- The next-stage instruction message appended when the birthday
matches (bot.py lines 429-436). -/
def confirmed_identity_message : Message :=
  { role := "system",
    content := "Next, thank the user for confirming their identity, then ask the user to list their current prescriptions. Each prescription needs to have a medication name and a dosage. Do not call the list_prescriptions function with any unknown dosages." }

/-- Handler `IntakeProcessor.verify_birthday` (bot.py lines 389-446): the
messages passed to `result_callback` are appended to the context by the
framework; on the matching birthday the tool set is first replaced with
the single `list_prescriptions` tool, otherwise the tool set is left
untouched and only the corrective message is appended. -/
def IntakeProcessor.verify_birthday (birthday : String) (c : OpenAILLMContext) :
    OpenAILLMContext :=
  if birthday = "1983-01-01" then
    (c.set_tools [list_prescriptions_tool]).add_message confirmed_identity_message
  else
    c.add_message incorrect_birthday_message

/-- The allergies-stage instruction message (bot.py lines 479-484). -/
def allergies_stage_message : Message :=
  { role := "system",
    content := "Next, ask the user if they have any allergies. Once they have listed their allergies or confirmed they don\x27t have any, call the list_allergies function." }

/-- The conditions-stage instruction message (bot.py lines 520-525). -/
def conditions_stage_message : Message :=
  { role := "system",
    content := "Now ask the user if they have any medical conditions the doctor should know about. Once they\x27ve answered the question, call the list_conditions function." }

/-- The visit-reasons-stage instruction message (bot.py lines 559-564). -/
def visit_reasons_stage_message : Message :=
  { role := "system",
    content := "Finally, ask the user the reason for their doctor visit today. Once they answer, call the list_visit_reasons function." }

/-- The closing-stage instruction message (bot.py lines 571-573). -/
def finish_stage_message : Message :=
  { role := "system", content := "Now, thank the user and end the conversation." }

/-- Handler `IntakeProcessor.start_prescriptions` (bot.py lines 448-487): the
start-callback run when the model calls `list_prescriptions`; it
replaces the tool set with the single allergies-stage tool, appends the
stage instruction, and re-submits the mutated context to the LLM
pipeline. -/
def IntakeProcessor.start_prescriptions (c : OpenAILLMContext) :
    OpenAILLMContext × List QueuedFrame :=
  let c1 := c.set_tools [list_allergies_tool]
  let c2 := c1.add_message allergies_stage_message
  (c2, [.llmContext c2])

/-- Handler `IntakeProcessor.start_allergies` (bot.py lines 489-526). -/
def IntakeProcessor.start_allergies (c : OpenAILLMContext) :
    OpenAILLMContext × List QueuedFrame :=
  let c1 := c.set_tools [list_conditions_tool]
  let c2 := c1.add_message conditions_stage_message
  (c2, [.llmContext c2])

/-- Handler `IntakeProcessor.start_conditions` (bot.py lines 528-565). -/
def IntakeProcessor.start_conditions (c : OpenAILLMContext) :
    OpenAILLMContext × List QueuedFrame :=
  let c1 := c.set_tools [list_visit_reasons_tool]
  let c2 := c1.add_message visit_reasons_stage_message
  (c2, [.llmContext c2])

/-- Handler `IntakeProcessor.start_visit_reasons` (bot.py lines 567-574): the
final stage declares no tools at all. -/
def IntakeProcessor.start_visit_reasons (c : OpenAILLMContext) :
    OpenAILLMContext × List QueuedFrame :=
  let c1 := c.set_tools []
  let c2 := c1.add_message finish_stage_message
  (c2, [.llmContext c2])

/-- Handler `IntakeProcessor.save_conversation` (bot.py lines 704-734): the
persisted document.  The handler fetches the ordered transcript, pops
its last element -- the save instruction that triggered the call --
and writes the remainder as one JSON document.  `pop` on an empty list
raises `IndexError`, which the `except` branch converts into an apology
with nothing persisted (`none`). -/
def IntakeProcessor.save_conversation (c : OpenAILLMContext) : Option (List Message) :=
  match c.get_messages_for_persistent_storage with
  | [] => none
  | ms => some ms.dropLast

/-- Outcome of an external HTTP call as seen by a processor: either an
exception raised while performing the request or parsing (network
error, timeout, a missing required JSON key), or a response with its
HTTP status code and parsed body. -/
inductive ApiOutcome (β : Type) where
  | failure (err : String)
  | response (status : Nat) (body : β)

/-- An external lookup call failed: an exception was raised during it,
or the response carried a non-success HTTP status. -/
def api_failed {β : Type} : ApiOutcome β → Prop
  | .failure _ => True
  | .response status _ => status ≠ 200

instance {β : Type} (o : ApiOutcome β) : Decidable (api_failed o) := by
  cases o with
  | failure e => exact isTrue trivial
  | response s b => exact inferInstanceAs (Decidable (s ≠ 200))

/-- The `current` object of an Open-Meteo response (bot.py lines
202-214).  The numeric JSON values are floating-point on the wire; the
code never computes with them, only interpolates them into a message,
so they are carried opaquely as their decimal text; the weather code is
an integer. -/
structure CurrentWeather where
  temperature_2m : String
  relative_humidity_2m : String
  apparent_temperature : String
  wind_speed_10m : String
  weather_code : Int
deriving DecidableEq, Repr

/-- The `WeatherData` TypedDict (bot.py lines 78-83). -/
structure WeatherData where
  temperature : String
  feels_like : String
  description : String
  humidity : String
  wind_speed : String
deriving DecidableEq, Repr

/-- Method `WeatherProcessor._get_weather_description` (bot.py lines 220-248):
the WMO weather-code table with its unknown-code default. -/
def WeatherProcessor.get_weather_description (code : Int) : String :=
  if code = 0 then "clear sky"
  else if code = 1 then "mainly clear"
  else if code = 2 then "partly cloudy"
  else if code = 3 then "overcast"
  else if code = 45 then "foggy"
  else if code = 48 then "depositing rime fog"
  else if code = 51 then "light drizzle"
  else if code = 53 then "moderate drizzle"
  else if code = 55 then "dense drizzle"
  else if code = 61 then "slight rain"
  else if code = 63 then "moderate rain"
  else if code = 65 then "heavy rain"
  else if code = 71 then "slight snow"
  else if code = 73 then "moderate snow"
  else if code = 75 then "heavy snow"
  else if code = 77 then "snow grains"
  else if code = 80 then "slight rain showers"
  else if code = 81 then "moderate rain showers"
  else if code = 82 then "violent rain showers"
  else if code = 85 then "slight snow showers"
  else if code = 86 then "heavy snow showers"
  else if code = 95 then "thunderstorm"
  else if code = 96 then "thunderstorm with slight hail"
  else if code = 99 then "thunderstorm with heavy hail"
  else "unknown weather condition"

/-- Method `WeatherProcessor.get_weather` (bot.py lines 188-218): any
exception during the call is caught and yields `None`; a non-200
status yields `None`; a body without the `current` key raises
`KeyError` inside the `try`, also caught to `None`; otherwise the
`WeatherData` record is assembled. -/
def WeatherProcessor.get_weather (o : ApiOutcome (Option CurrentWeather)) :
    Option WeatherData :=
  match o with
  | .failure _ => none
  | .response status body =>
    if status ≠ 200 then none
    else
      match body with
      | none => none
      | some current =>
        some { temperature := current.temperature_2m,
               feels_like := current.apparent_temperature,
               description := WeatherProcessor.get_weather_description current.weather_code,
               humidity := current.relative_humidity_2m,
               wind_speed := current.wind_speed_10m }

/-- One raw meal object of a TheMealDB response (bot.py lines 159-169):
its name, category and instruction strings plus the twenty
`strIngredient<i>` / `strMeasure<i>` slots (absent keys as `none`). -/
structure RawMeal where
  strMeal : String
  strCategory : String
  strInstructions : String
  slots : List (Option String × Option String)
deriving DecidableEq, Repr

/-- The `RecipeData` TypedDict (bot.py lines 132-137). -/
structure RecipeData where
  name : String
  category : String
  instructions : String
  ingredients : List String
  measurements : List String
deriving DecidableEq, Repr

/-- The ingredient-extraction loop of `RecipeProcessor.get_recipe`
(bot.py lines 161-169): keep an ingredient slot only when it is present
and non-blank; the measurement of a kept slot defaults to "to taste" when
absent or blank. -/
def extract_ingredients : List (Option String × Option String) →
    List String × List String
  | [] => ([], [])
  | (ing?, meas?) :: rest =>
    let (is, ms) := extract_ingredients rest
    match ing? with
    | none => (is, ms)
    | some ing =>
      if ing = "" ∨ ing.trim = "" then (is, ms)
      else
        let m := match meas? with
          | some meas => if meas = "" ∨ meas.trim = "" then "to taste" else meas
          | none => "to taste"
        (ing :: is, m :: ms)

/-- Method `RecipeProcessor.get_recipe` (bot.py lines 145-180): exception →
`None`; non-200 status → `None`; a null/absent `meals` value → `None`;
otherwise the first meal is converted. -/
def RecipeProcessor.get_recipe (o : ApiOutcome (Option (List RawMeal))) :
    Option RecipeData :=
  match o with
  | .failure _ => none
  | .response status body =>
    if status ≠ 200 then none
    else
      match body with
      | none => none
      | some [] => none
      | some (meal :: _) =>
        let (ings, meas) := extract_ingredients meal.slots
        some { name := meal.strMeal, category := meal.strCategory,
               instructions := meal.strInstructions,
               ingredients := ings, measurements := meas }

/-- A raw article object of a NewsData.io response (bot.py lines
118-125): required keys `title`, `source_id`, `link`, `pubDate`, and an
optional `description`. -/
structure RawArticle where
  title : String
  description : Option String
  source_id : String
  link : String
  pubDate : String
deriving DecidableEq, Repr

/-- The `NewsArticle` TypedDict (bot.py lines 85-90). -/
structure NewsArticle where
  title : String
  description : String
  source : String
  url : String
  published_at : String
deriving DecidableEq, Repr

/-- Method `NewsProcessor.get_latest_news` (bot.py lines 99-130): exception →
`None`; non-200 status → `None`; an absent or empty `results` array →
`None`; otherwise the top five articles are converted, a missing
description defaulting to a placeholder. -/
def NewsProcessor.get_latest_news (o : ApiOutcome (Option (List RawArticle))) :
    Option (List NewsArticle) :=
  match o with
  | .failure _ => none
  | .response status body =>
    if status ≠ 200 then none
    else
      match body with
      | none => none
      | some results =>
        if results = [] then none
        else some ((results.take 5).map (fun a =>
          { title := a.title,
            description := a.description.getD "No description available",
            source := a.source_id, url := a.link, published_at := a.pubDate }))

/-- The user-facing fallback appended when the weather lookup returned
nothing (bot.py lines 589-598). -/
def weather_fallback_message : Message :=
  { role := "system",
    content := "I couldn\x27t get the weather data for these coordinates. Please try again later." }

/-- The weather report message of the success branch (bot.py lines
600-607). -/
def weather_report_message (w : WeatherData) : Message :=
  { role := "system",
    content := "The current weather is " ++ w.description ++ " with a temperature of "
      ++ w.temperature ++ "°C (feels like " ++ w.feels_like ++ "°C). The humidity is "
      ++ w.humidity ++ "% and wind speed is " ++ w.wind_speed ++ " meters per second." }

/-- Handler `IntakeProcessor.get_weather` (bot.py lines 582-607): the aiohttp
session call is abstracted to the `Option` result of the processor; the
messages handed to `result_callback` are appended to the context.  A
`None` lookup result becomes the fallback message; nothing is raised
into the dispatcher. -/
def IntakeProcessor.get_weather (lookup_result : Option WeatherData)
    (c : OpenAILLMContext) : OpenAILLMContext :=
  match lookup_result with
  | none => c.add_message weather_fallback_message
  | some w => c.add_message (weather_report_message w)

/-- The user-facing fallback for a failed recipe lookup (bot.py lines
616-625). -/
def recipe_fallback_message (meal_name : String) : Message :=
  { role := "system",
    content := "I couldn\x27t find a recipe for " ++ meal_name
      ++ ". Would you like to try searching for a different meal?" }

/-- The formatted recipe message of the success branch (bot.py lines
627-646), with the ingredient lines `- <measure> <ingredient>`. -/
def recipe_report_message (r : RecipeData) : Message :=
  { role := "system",
    content := "Here\x27s the recipe for " ++ r.name ++ " (Category: " ++ r.category
      ++ "):\n\nIngredients:\n"
      ++ String.intercalate "\n"
          ((r.ingredients.zip r.measurements).map (fun im => "- " ++ im.2 ++ " " ++ im.1))
      ++ "\n\nInstructions:\n" ++ r.instructions
      ++ "\n\nWould you like me to help you find another recipe?" }

/-- Handler `IntakeProcessor.get_recipe` (bot.py lines 609-646). -/
def IntakeProcessor.get_recipe (meal_name : String) (lookup_result : Option RecipeData)
    (c : OpenAILLMContext) : OpenAILLMContext :=
  match lookup_result with
  | none => c.add_message (recipe_fallback_message meal_name)
  | some r => c.add_message (recipe_report_message r)

/-- The user-facing fallback for a failed news lookup (bot.py lines
655-664). -/
def news_fallback_message (query : String) : Message :=
  { role := "system",
    content := "I couldn\x27t find any news articles about \x27" ++ query
      ++ "\x27. Would you like to try a different topic?" }

/-- The summarisation instruction added before the raw articles
(bot.py lines 666-674). -/
def news_summarize_message : Message :=
  { role := "system",
    content := "Please summarize the following news articles in a concise and engaging way. For each article:\n1. Keep the title and source\n2. Provide a 1-2 sentence summary of the key points\n3. Avoid technical jargon and keep it conversational\n4. Include the URL for more details" }

/-- The raw-article block added as a user message (bot.py lines
676-689). -/
def news_articles_message (articles : List NewsArticle) : Message :=
  { role := "user",
    content := String.intercalate "\n\n" (articles.map (fun a =>
      "Title: " ++ a.title ++ "\nSource: " ++ a.source ++ "\nDescription: "
        ++ a.description ++ "\nURL: " ++ a.url)) }

/-- The closing instruction passed to `result_callback` in the news
success branch (bot.py lines 695-702). -/
def news_followup_message (query : String) : Message :=
  { role := "system",
    content := "After providing the summarized news about " ++ query
      ++ ", ask if they would like to explore another topic." }

/-- Handler `IntakeProcessor.get_news` (bot.py lines 648-702): on a `None`
lookup only the fallback is appended; on success the summarisation
instruction and the raw articles are appended, the context is
re-submitted to the LLM, and the follow-up instruction is appended via
`result_callback`. -/
def IntakeProcessor.get_news (query : String) (lookup_result : Option (List NewsArticle))
    (c : OpenAILLMContext) : OpenAILLMContext × List QueuedFrame :=
  match lookup_result with
  | none => (c.add_message (news_fallback_message query), [])
  | some articles =>
    let c1 := c.add_message news_summarize_message
    let c2 := c1.add_message (news_articles_message articles)
    ((c2.add_message (news_followup_message query)), [.llmContext c2])

/-!
Flow configuration and termination sequence of `src/bots/shawarma_bot.py`.
The node graph is embedded structurally: for each node its function
names with their transition targets and its pre- and post-actions, exactly
as declared in `flow_config` (lines 414-747).  The per-node prompt
texts are conversational data for the LLM and are not used by any
verified property, so they are not repeated here.
-/

/-- An action attached to a node of `flow_config`. -/
inductive FlowAction where
  | tts_say (text : String)
  | end_conversation
  | check_kitchen
deriving DecidableEq, Repr

/-- The structural content of one node of `flow_config`. -/
structure FlowNode where
  functions : List (String × Option String)
  pre_actions : List FlowAction
  post_actions : List FlowAction
deriving DecidableEq, Repr

/-- The node table of `flow_config` (shawarma_bot.py lines 414-747),
with the `transition_to` target of each function. -/
def flow_config_nodes : List (String × FlowNode) :=
  [ ("start",
     { functions := [("get_menu", none), ("start_ordering", some "order_items")],
       pre_actions := [.check_kitchen], post_actions := [] }),
    ("order_items",
     { functions := [("select_shawarma_order", some "delivery_info"), ("get_menu", none)],
       pre_actions := [], post_actions := [] }),
    ("delivery_info",
     { functions := [("set_delivery_info", some "confirm")],
       pre_actions := [], post_actions := [] }),
    ("confirm",
     { functions := [("complete_order", some "end"), ("revise_order", some "start")],
       pre_actions := [], post_actions := [] }),
    ("end",
     { functions := [],
       pre_actions := [],
       post_actions := [.tts_say "شكراً لطلبك، مع السلامة", .end_conversation] }) ]

/-- Entry `flow_config["initial_node"]` (shawarma_bot.py line 415). -/
def flow_config_initial_node : String := "start"

/-- The grace delay passed by `end_conversation_handler` to
`end_call_after_delay` (shawarma_bot.py line 372): five whole seconds. -/
def end_conversation_grace_delay : Nat := 5

/-- An observable event at the transport boundary: a closing utterance
flushed downstream, or the `EndFrame` termination signal queued into
the pipeline. -/
inductive TransportEvent where
  | say (text : String)
  | endFrame
deriving DecidableEq, Repr

/-- Events emitted synchronously while an action executes: a `tts_say`
action dispatches its utterance downstream during the post-action run. -/
def FlowAction.sync_events : FlowAction → List TransportEvent
  | .tts_say t => [.say t]
  | .end_conversation => []
  | .check_kitchen => []

/-- Events produced by the task an action spawns:
`end_conversation_handler` calls `asyncio.create_task(end_call_after_delay d)`,
whose coroutine sleeps `d` seconds and then queues an `EndFrame`
(shawarma_bot.py lines 367-386). -/
def FlowAction.deferred_events : FlowAction → List TransportEvent
  | .tts_say _ => []
  | .end_conversation => [.endFrame]
  | .check_kitchen => []

/-- Modelled from the spec: executing the post-actions of a node under the
cooperative single-threaded scheduling of the session (spec sections
4.4 and 5; the event loop itself is outside this repository).  The
actions run synchronously in declaration order, each emitting its
synchronous events; a task created with `asyncio.create_task` during
that run starts only after the synchronous run has yielded, so every
deferred event is observed after every synchronous one, whatever the
sleep delay -- the delay only time-stamps the deferred events.  The
trace lists `(seconds after the post-action run, event)` in observation
order. -/
def run_post_actions (delay : Nat) (actions : List FlowAction) : List (Nat × TransportEvent) :=
  ((actions.map FlowAction.sync_events).flatten.map (fun e => (0, e)))
    ++ ((actions.map FlowAction.deferred_events).flatten.map (fun e => (delay, e)))

/-- The observable trace of entering the terminal node with a given
grace delay. -/
def end_node_trace (delay : Nat) : List (Nat × TransportEvent) :=
  match alookup flow_config_nodes "end" with
  | none => []
  | some n => run_post_actions delay n.post_actions

/-- The active order after the create-if-absent step at the top of
`add_item`; proof-side abbreviation. -/
def ensured_order (om : OrderManager) : Order :=
  match om.current_order with
  | none => { items := [], address := "", phone := "", total := 0,
              special_instructions := none, delivery_notes := none }
  | some o => o

/-- A manager state whose stored total agrees with the recomputed sum
of its item prices.  This holds of the initial state and is preserved
by every `OrderManager` operation, so it holds of every reachable
state. -/
def OrderManager.consistent (om : OrderManager) : Prop :=
  sumItemPrices om.order_items = .ok om.order_total

/-- Every item of the order has a menu type and only known extras, so
that `get_order_summary` cannot raise on it. -/
def order_items_valid (o : Order) : Bool :=
  o.items.all (fun it => (alookup SHAWARMA_MENU it.type).isSome
    && it.extras.all (fun x => (alookup EXTRAS x).isSome))

/-!
Theorems.
-/

/-- C1: for an order with one "meat" item of quantity 2 and extras
["cheese"], `calculate_item_price` returns 180 and `_update_total`
stores 180 as the order total; after also adding one "chicken" item of
quantity 1 with no extras, the stored total is 245. -/
theorem c1_accumulating_order_total :
    (OrderManager.add_item ⟨none, 1⟩ "meat" 2 ["cheese"]).2
        = .ok { type := "meat", quantity := 2, extras := ["cheese"] }
  ∧ OrderManager.calculate_item_price { type := "meat", quantity := 2, extras := ["cheese"] }
        = .ok 180
  ∧ (OrderManager.add_item ⟨none, 1⟩ "meat" 2 ["cheese"]).1.order_total = 180
  ∧ (OrderManager.add_item (OrderManager.add_item ⟨none, 1⟩ "meat" 2 ["cheese"]).1
        "chicken" 1 []).2 = .ok { type := "chicken", quantity := 1, extras := [] }
  ∧ (OrderManager.add_item (OrderManager.add_item ⟨none, 1⟩ "meat" 2 ["cheese"]).1
        "chicken" 1 []).1.order_total = 245 := by
  decide

/-- C2: a wrong birthday only appends the corrective system message and
leaves the advertised tool set (and hence the stage) unchanged; the
verification value "1983-01-01" replaces the tool set with exactly the
single `list_prescriptions` tool and appends the next-stage instruction. -/
theorem c2_verify_birthday_identity_gate (c : OpenAILLMContext) (b : String)
    (hb : b ≠ "1983-01-01") :
    (IntakeProcessor.verify_birthday b c = c.add_message incorrect_birthday_message
      ∧ (IntakeProcessor.verify_birthday b c).tools = c.tools
      ∧ (IntakeProcessor.verify_birthday b c).messages
          = c.messages ++ [incorrect_birthday_message])
  ∧ (IntakeProcessor.verify_birthday "1983-01-01" c
        = (c.set_tools [list_prescriptions_tool]).add_message confirmed_identity_message
      ∧ (IntakeProcessor.verify_birthday "1983-01-01" c).tools = [list_prescriptions_tool]
      ∧ (IntakeProcessor.verify_birthday "1983-01-01" c).messages
          = c.messages ++ [confirmed_identity_message]) := by
  unfold IntakeProcessor.verify_birthday
  rw [if_neg hb, if_pos rfl]
  exact ⟨⟨rfl, rfl, rfl⟩, rfl, rfl, rfl⟩

/-- Witness for C2 at the concrete wrong birthday "wrong" on the
initial context. -/
theorem c2_verify_birthday_identity_gate_witness :
    ("wrong" ≠ "1983-01-01")
  ∧ (IntakeProcessor.verify_birthday "wrong"
        { messages := [], tools := intake_initial_tools }).tools = intake_initial_tools := by
  refine ⟨by decide, ?_⟩
  exact ((c2_verify_birthday_identity_gate
    { messages := [], tools := intake_initial_tools } "wrong" (by decide)).1).2.1

/-- C3: every stage transition installs exactly the declared tool set
of the next stage -- the single next-stage tool, or the empty set for
the final stage -- and the context re-submitted to the LLM pipeline by
each start-callback already carries that new tool set. -/
theorem c3_stage_tool_sets_exact (c : OpenAILLMContext) :
    (IntakeProcessor.verify_birthday "1983-01-01" c).tools = [list_prescriptions_tool]
  ∧ ((IntakeProcessor.start_prescriptions c).1.tools = [list_allergies_tool]
      ∧ (IntakeProcessor.start_prescriptions c).2
          = [QueuedFrame.llmContext (IntakeProcessor.start_prescriptions c).1])
  ∧ ((IntakeProcessor.start_allergies c).1.tools = [list_conditions_tool]
      ∧ (IntakeProcessor.start_allergies c).2
          = [QueuedFrame.llmContext (IntakeProcessor.start_allergies c).1])
  ∧ ((IntakeProcessor.start_conditions c).1.tools = [list_visit_reasons_tool]
      ∧ (IntakeProcessor.start_conditions c).2
          = [QueuedFrame.llmContext (IntakeProcessor.start_conditions c).1])
  ∧ ((IntakeProcessor.start_visit_reasons c).1.tools = []
      ∧ (IntakeProcessor.start_visit_reasons c).2
          = [QueuedFrame.llmContext (IntakeProcessor.start_visit_reasons c).1]) := by
  refine ⟨?_, ⟨rfl, rfl⟩, ⟨rfl, rfl⟩, ⟨rfl, rfl⟩, rfl, rfl⟩
  unfold IntakeProcessor.verify_birthday
  rw [if_pos rfl]
  rfl

/-- C4: when the transcript is non-empty (as it always is when the
save instruction arrives), `save_conversation` persists exactly the
transcript with its final message removed, in original order. -/
theorem c4_save_conversation_drops_final_message (c : OpenAILLMContext)
    (h : c.messages ≠ []) :
    IntakeProcessor.save_conversation c = some c.messages.dropLast
  ∧ ∃ last, c.messages = c.messages.dropLast ++ [last] := by
  constructor
  · cases hm : c.messages with
    | nil => exact absurd hm h
    | cons a as =>
      simp [IntakeProcessor.save_conversation,
        OpenAILLMContext.get_messages_for_persistent_storage, hm]
  · exact ⟨c.messages.getLast h, (List.dropLast_append_getLast h).symm⟩

/-- Witness for C4 on a two-message transcript ending in the save
instruction. -/
theorem c4_save_conversation_drops_final_message_witness :
    (({ messages := [{ role := "user", content := "hi" },
                     { role := "system", content := "please save the conversation" }],
        tools := [] } : OpenAILLMContext).messages ≠ [])
  ∧ (IntakeProcessor.save_conversation
        { messages := [{ role := "user", content := "hi" },
                       { role := "system", content := "please save the conversation" }],
          tools := [] }
        = some ({ messages := [{ role := "user", content := "hi" },
                               { role := "system", content := "please save the conversation" }],
                  tools := [] } : OpenAILLMContext).messages.dropLast
      ∧ ∃ last, ({ messages := [{ role := "user", content := "hi" },
                                { role := "system", content := "please save the conversation" }],
                   tools := [] } : OpenAILLMContext).messages
          = ({ messages := [{ role := "user", content := "hi" },
                            { role := "system", content := "please save the conversation" }],
               tools := [] } : OpenAILLMContext).messages.dropLast ++ [last]) := by
  refine ⟨by decide, ?_⟩
  exact c4_save_conversation_drops_final_message _ (by decide)

/-- C5: the post-actions of the terminal node are declared with the closing
`tts_say` announce before the `end_conversation` action; the
`end_conversation` handler schedules the session-end `EndFrame` after a
fixed whole-second grace delay of 5; and in the cooperative trace of
the post-action run the closing utterance is observed before the
termination signal for every delay, including zero. -/
theorem c5_termination_after_closing_utterance :
    (alookup flow_config_nodes "end").map FlowNode.post_actions
        = some [.tts_say "شكراً لطلبك، مع السلامة", .end_conversation]
  ∧ end_conversation_grace_delay = 5
  ∧ ∀ delay : Nat, end_node_trace delay
        = [(0, TransportEvent.say "شكراً لطلبك، مع السلامة"), (delay, TransportEvent.endFrame)] := by
  exact ⟨rfl, rfl, fun delay => rfl⟩

/-- C6: for each external data lookup (weather, recipe, news), an
exception raised during the call or a non-success HTTP status yields a
`none` result instead of propagating, and each invoking handler turns a
`none` result into its user-facing fallback system message appended to
the context, raising nothing into the dispatcher. -/
theorem c6_external_lookup_failures
    (ow : ApiOutcome (Option CurrentWeather)) (orc : ApiOutcome (Option (List RawMeal)))
    (oa : ApiOutcome (Option (List RawArticle))) (c : OpenAILLMContext)
    (meal query : String)
    (hw : api_failed ow) (hr : api_failed orc) (ha : api_failed oa) :
    WeatherProcessor.get_weather ow = none
  ∧ RecipeProcessor.get_recipe orc = none
  ∧ NewsProcessor.get_latest_news oa = none
  ∧ IntakeProcessor.get_weather none c = c.add_message weather_fallback_message
  ∧ IntakeProcessor.get_recipe meal none c = c.add_message (recipe_fallback_message meal)
  ∧ IntakeProcessor.get_news query none c
      = (c.add_message (news_fallback_message query), []) := by
  refine ⟨?_, ?_, ?_, rfl, rfl, rfl⟩
  · cases ow with
    | failure e => rfl
    | response s b =>
      have hs : s ≠ 200 := hw
      simp [WeatherProcessor.get_weather, hs]
  · cases orc with
    | failure e => rfl
    | response s b =>
      have hs : s ≠ 200 := hr
      simp [RecipeProcessor.get_recipe, hs]
  · cases oa with
    | failure e => rfl
    | response s b =>
      have hs : s ≠ 200 := ha
      simp [NewsProcessor.get_latest_news, hs]

/-- Witness for C6: a 500 weather response, a 404 recipe response, and
an exception during the news call. -/
theorem c6_external_lookup_failures_witness :
    (api_failed (ApiOutcome.response 500 (none : Option CurrentWeather))
      ∧ api_failed (ApiOutcome.response 404 (none : Option (List RawMeal)))
      ∧ api_failed (ApiOutcome.failure "timeout" : ApiOutcome (Option (List RawArticle))))
  ∧ WeatherProcessor.get_weather (.response 500 none) = none
  ∧ RecipeProcessor.get_recipe (.response 404 none) = none
  ∧ NewsProcessor.get_latest_news (.failure "timeout") = none := by
  have h := c6_external_lookup_failures (.response 500 none) (.response 404 none)
    (.failure "timeout") { messages := [], tools := [] } "koshari" "sports"
    (by decide) (by decide) trivial
  exact ⟨⟨by decide, by decide, trivial⟩, h.1, h.2.1, h.2.2.1⟩

/-- C7: every order-flow tool handler catches internal exceptions at
its boundary and returns a structured result -- an `ErrorResult` with
status "error" on failure, in particular for the `ValueError` of
`add_item` on a type outside the menu and of `set_delivery_info` with
no active order -- and never propagates an exception. -/
theorem c7_order_flow_handler_boundary (om : OrderManager) (t : String) (q : Int)
    (e : List String) (addr phone : String) (si : Option String) :
    (∀ om1 err, OrderManager.add_item om t q e = (om1, .error err) →
        select_shawarma_order om t q e
          = (om1, .errorResult { status := "error", error := "فشل في إضافة الطلب" }))
  ∧ (alookup SHAWARMA_MENU t = none →
        (select_shawarma_order om t q e).2
          = .errorResult { status := "error", error := "فشل في إضافة الطلب" })
  ∧ (om.current_order = none →
        (set_delivery_info om addr phone si).2
          = .errorResult { status := "error", error := "فشل في تأكيد معلومات التوصيل" })
  ∧ ((select_shawarma_order om t q e).2
        = .errorResult { status := "error", error := "فشل في إضافة الطلب" }
      ∨ ∃ it p, (select_shawarma_order om t q e).2 = .orderResult it p)
  ∧ ((set_delivery_info om addr phone si).2
        = .errorResult { status := "error", error := "فشل في تأكيد معلومات التوصيل" }
      ∨ (set_delivery_info om addr phone si).2
          = .orderDetailsResult addr phone si
              (OrderManager.get_estimated_delivery_time (set_delivery_info om addr phone si).1))
  ∧ get_menu = .menuResult SHAWARMA_MENU
  ∧ get_extras = .extrasResult EXTRAS := by
  refine ⟨?_, ?_, ?_, ?_, ?_, rfl, rfl⟩
  · intro om1 err h
    simp only [select_shawarma_order, h]
  · intro hl
    simp only [select_shawarma_order, OrderManager.add_item, hl]
  · intro hco
    simp only [set_delivery_info, OrderManager.set_delivery_info, hco]
  · rcases h : OrderManager.add_item om t q e with ⟨om1, r⟩
    cases r with
    | error err => left; simp only [select_shawarma_order, h]
    | ok it =>
      rcases hp : OrderManager.calculate_item_price it with err | p
      · left; simp only [select_shawarma_order, h, hp]
      · right; exact ⟨it, p, by simp only [select_shawarma_order, h, hp]⟩
  · cases hco : om.current_order with
    | none => left; simp only [set_delivery_info, OrderManager.set_delivery_info, hco]
    | some o => right; simp only [set_delivery_info, OrderManager.set_delivery_info, hco]

/-- Witness for C7: an item type outside the menu yields the structured
error result (with the freshly created empty order kept in the state),
and a delivery update with no active order yields its structured error
result. -/
theorem c7_order_flow_handler_boundary_witness :
    (OrderManager.add_item ⟨none, 1⟩ "sushi" 1 []
        = ((OrderManager.create_new_order ⟨none, 1⟩).1,
           (Except.error "Invalid item type: sushi" : Except String OrderItem)))
  ∧ select_shawarma_order ⟨none, 1⟩ "sushi" 1 []
      = ((OrderManager.create_new_order ⟨none, 1⟩).1,
         .errorResult { status := "error", error := "فشل في إضافة الطلب" })
  ∧ (set_delivery_info ⟨none, 1⟩ "a" "b" none).2
      = .errorResult { status := "error", error := "فشل في تأكيد معلومات التوصيل" } := by
  refine ⟨by decide, ?_, ?_⟩
  · exact (c7_order_flow_handler_boundary ⟨none, 1⟩ "sushi" 1 [] "a" "b" none).1
      (OrderManager.create_new_order ⟨none, 1⟩).1 "Invalid item type: sushi" (by decide)
  · exact (c7_order_flow_handler_boundary ⟨none, 1⟩ "sushi" 1 [] "a" "b" none).2.2.1 rfl

/-- The filtered extras sum equals the per-entry sum that charges 0 for
each unknown extra. -/
theorem extras_price_eq_map_sum (l : List String) :
    extras_price l = (l.map (fun s => match alookup EXTRAS s with
      | some r => r.price
      | none => 0)).sum := by
  induction l with
  | nil => rfl
  | cons a l ih =>
    cases h : alookup EXTRAS a with
    | none => simp [extras_price, List.filterMap_cons, h] at ih ⊢; exact ih
    | some v => simp [extras_price, List.filterMap_cons, h] at ih ⊢; rw [ih]

/-- Appending an unknown extra leaves the extras sum unchanged. -/
theorem extras_price_append_unknown (l : List String) (x : String)
    (hx : alookup EXTRAS x = none) :
    extras_price (l ++ [x]) = extras_price l := by
  simp [extras_price, List.filterMap_append, List.filterMap_cons, hx]

/-- C9: the price of an order item is its menu base price times its
quantity plus the sum of the prices of its known extras, each counted
once per line item independently of the quantity; an extra outside
`EXTRAS` contributes nothing, and `add_item` nevertheless stores any
extras list verbatim without validation. -/
theorem c9_item_price_formula (it : OrderItem) (mi : MenuItem) (q2 : Int)
    (x : String) (n : Int) (t : String) (q : Int) (e : List String)
    (hm : alookup SHAWARMA_MENU it.type = some mi)
    (hx : alookup EXTRAS x = none)
    (ht : (alookup SHAWARMA_MENU t).isSome) :
    OrderManager.calculate_item_price it
        = .ok (mi.price * it.quantity
            + (it.extras.map (fun s => match alookup EXTRAS s with
                | some r => r.price
                | none => 0)).sum)
  ∧ OrderManager.calculate_item_price { it with quantity := q2 }
        = .ok (mi.price * q2 + extras_price it.extras)
  ∧ OrderManager.calculate_item_price { it with extras := it.extras ++ [x] }
        = OrderManager.calculate_item_price it
  ∧ (OrderManager.add_item ⟨none, n⟩ t q e).2 = .ok { type := t, quantity := q, extras := e }
  ∧ (OrderManager.add_item ⟨none, n⟩ t q e).1.order_items
        = [{ type := t, quantity := q, extras := e }] := by
  obtain ⟨mi2, hmi2⟩ := Option.isSome_iff_exists.mp ht
  refine ⟨?_, ?_, ?_, ?_, ?_⟩
  · rw [← extras_price_eq_map_sum]
    simp [OrderManager.calculate_item_price, hm]
  · simp [OrderManager.calculate_item_price, hm]
  · simp [OrderManager.calculate_item_price, hm, extras_price_append_unknown it.extras x hx]
  · simp [OrderManager.add_item, hmi2, OrderManager.create_new_order,
      OrderManager.append_item, OrderManager.update_total, sumItemPrices,
      OrderManager.calculate_item_price]
  · simp [OrderManager.add_item, hmi2, OrderManager.create_new_order,
      OrderManager.append_item, OrderManager.update_total, sumItemPrices,
      OrderManager.calculate_item_price, OrderManager.order_items]

/-- Witness for C9: a meat item with a known and an unknown extra. -/
theorem c9_item_price_formula_witness :
    (alookup SHAWARMA_MENU "meat"
        = some { name := "شاورما لحمة", price := 85,
                 description := "شاورما لحم بقري مشوي على الفحم مع صوص طحينة وخضار" }
      ∧ alookup EXTRAS "pickles" = none
      ∧ (alookup SHAWARMA_MENU "chicken").isSome)
  ∧ OrderManager.calculate_item_price
        { type := "meat", quantity := 2, extras := ["cheese", "pickles"] }
      = OrderManager.calculate_item_price { type := "meat", quantity := 2, extras := ["cheese"] }
  ∧ (OrderManager.add_item ⟨none, 1⟩ "chicken" 1 ["pickles"]).2
      = .ok { type := "chicken", quantity := 1, extras := ["pickles"] } := by
  have h := c9_item_price_formula { type := "meat", quantity := 2, extras := ["cheese"] }
    { name := "شاورما لحمة", price := 85,
      description := "شاورما لحم بقري مشوي على الفحم مع صوص طحينة وخضار" }
    5 "pickles" 1 "chicken" 1 ["pickles"] (by decide) (by decide) (by decide)
  exact ⟨⟨by decide, by decide, by decide⟩, h.2.2.1, h.2.2.2.1⟩

/-- Items of the active order after the create-if-absent step. -/
theorem ensured_order_items (om : OrderManager) :
    (ensured_order om).items = om.order_items := by
  cases h : om.current_order <;> simp [ensured_order, OrderManager.order_items, h]

/-- Appending one item to a successfully priced list adds its price. -/
theorem sumItemPrices_append_ok (xs : List OrderItem) (y : OrderItem) (s p : Int)
    (h1 : sumItemPrices xs = .ok s) (h2 : OrderManager.calculate_item_price y = .ok p) :
    sumItemPrices (xs ++ [y]) = .ok (s + p) := by
  induction xs generalizing s with
  | nil =>
    simp only [sumItemPrices] at h1
    injection h1 with h1
    subst h1
    simp [sumItemPrices, h2]
  | cons a l ih =>
    rcases hpa : OrderManager.calculate_item_price a with ea | pa
    · simp only [sumItemPrices, hpa] at h1
      exact Except.noConfusion h1
    · simp only [sumItemPrices, hpa] at h1
      rcases hsl : sumItemPrices l with el | sl
      · rw [hsl] at h1
        exact Except.noConfusion h1
      · rw [hsl] at h1
        injection h1 with h1
        subst h1
        have hrec := ih sl hsl
        simp only [List.cons_append, sumItemPrices, List.append_eq, hpa, hrec]
        rw [Int.add_assoc]

/-- Inversion: a successful sum over `xs ++ [y]` splits into a
successful sum over `xs` and a successful price of `y`. -/
theorem sumItemPrices_append_inv (xs : List OrderItem) (y : OrderItem) (tv : Int)
    (h : sumItemPrices (xs ++ [y]) = .ok tv) :
    ∃ s p, sumItemPrices xs = .ok s ∧ OrderManager.calculate_item_price y = .ok p
      ∧ tv = s + p := by
  induction xs generalizing tv with
  | nil =>
    simp only [List.nil_append] at h
    rcases hp : OrderManager.calculate_item_price y with e | p
    · simp only [sumItemPrices, hp] at h
      exact Except.noConfusion h
    · simp only [sumItemPrices, hp] at h
      injection h with h
      exact ⟨0, p, rfl, rfl, by omega⟩
  | cons a l ih =>
    rcases hpa : OrderManager.calculate_item_price a with ea | pa
    · simp only [List.cons_append, sumItemPrices, List.append_eq, hpa] at h
      exact Except.noConfusion h
    · simp only [List.cons_append, sumItemPrices, List.append_eq, hpa] at h
      rcases hsl : sumItemPrices (l ++ [y]) with el | sl
      · rw [hsl] at h
        exact Except.noConfusion h
      · rw [hsl] at h
        injection h with h
        obtain ⟨s, p, hs, hp, heq⟩ := ih sl hsl
        refine ⟨pa + s, p, ?_, hp, by omega⟩
        simp only [sumItemPrices, hpa, hs]

/-- Characterisation of `add_item` in terms of the active order before
the call. -/
theorem add_item_eq (om : OrderManager) (t : String) (q : Int) (e : List String) :
    OrderManager.add_item om t q e =
      match alookup SHAWARMA_MENU t with
      | none => ({ om with current_order := some (ensured_order om) },
                 .error ("Invalid item type: " ++ t))
      | some _ =>
        match sumItemPrices ((ensured_order om).items ++ [⟨t, q, e⟩]) with
        | .error err =>
          ({ om with current_order := some { ensured_order om with items := (ensured_order om).items ++ [⟨t, q, e⟩] } },
           .error err)
        | .ok tv =>
          ({ om with current_order := some { ensured_order om with items := (ensured_order om).items ++ [⟨t, q, e⟩], total := tv } },
           .ok ⟨t, q, e⟩) := by
  obtain ⟨co, ni⟩ := om
  cases hco : co with
  | none =>
    cases hl : alookup SHAWARMA_MENU t with
    | none =>
      simp [OrderManager.add_item, hco, hl, ensured_order, OrderManager.create_new_order]
    | some mi =>
      cases hs : sumItemPrices ([⟨t, q, e⟩]) with
      | error err =>
        simp [OrderManager.add_item, hco, hl, ensured_order, OrderManager.create_new_order,
          OrderManager.append_item, OrderManager.update_total, hs]
      | ok tv =>
        simp [OrderManager.add_item, hco, hl, ensured_order, OrderManager.create_new_order,
          OrderManager.append_item, OrderManager.update_total, hs]
  | some o =>
    cases hl : alookup SHAWARMA_MENU t with
    | none =>
      simp [OrderManager.add_item, hl, ensured_order]
    | some mi =>
      cases hs : sumItemPrices (o.items ++ [⟨t, q, e⟩]) with
      | error err =>
        simp [OrderManager.add_item, hco, hl, ensured_order,
          OrderManager.append_item, OrderManager.update_total, hs]
      | ok tv =>
        simp [OrderManager.add_item, hco, hl, ensured_order,
          OrderManager.append_item, OrderManager.update_total, hs]

/-- C8: replaying a successful `add_item` with identical arguments on
the state it produced appends the same item dict again and increases
the order total by the same amount (the price of the item), provided
the stored total of the starting state agrees with its items -- which holds of
every state the code can reach; `next_order_id` is untouched by both
calls, being consumed only by `finalize_order`. -/
theorem c8_add_item_replay (om om1 om2 : OrderManager) (t : String) (q : Int)
    (e : List String) (i1 : OrderItem) (r2 : Except String OrderItem)
    (hcons : OrderManager.consistent om)
    (h1 : OrderManager.add_item om t q e = (om1, .ok i1))
    (h2 : OrderManager.add_item om1 t q e = (om2, r2)) :
    r2 = .ok i1
  ∧ om1.order_items = om.order_items ++ [i1]
  ∧ om2.order_items = om1.order_items ++ [i1]
  ∧ (∃ p, OrderManager.calculate_item_price i1 = .ok p
      ∧ om1.order_total - om.order_total = p
      ∧ om2.order_total - om1.order_total = p)
  ∧ om1.next_order_id = om.next_order_id
  ∧ om2.next_order_id = om.next_order_id := by
  rw [add_item_eq] at h1 h2
  cases hl : alookup SHAWARMA_MENU t with
  | none =>
    rw [hl] at h1
    simp at h1
  | some mi =>
    rw [hl] at h1 h2
    cases hs1 : sumItemPrices ((ensured_order om).items ++ [⟨t, q, e⟩]) with
    | error err =>
      rw [hs1] at h1
      simp at h1
    | ok T1 =>
      rw [hs1] at h1
      injection h1 with hom1 hr1
      injection hr1 with hi
      subst hi
      obtain ⟨s, p, hsA, hpi, hT1⟩ := sumItemPrices_append_inv _ _ _ hs1
      have hitems1 : (ensured_order om1).items
          = (ensured_order om).items ++ [⟨t, q, e⟩] := by
        rw [← hom1] <;> rfl
      have htot1 : om1.order_total = T1 := by
        rw [← hom1] <;> rfl
      have hitems1' : om1.order_items = (ensured_order om).items ++ [⟨t, q, e⟩] := by
        rw [← hom1] <;> rfl
      have hid1 : om1.next_order_id = om.next_order_id := by
        rw [← hom1] <;> rfl
      rw [hitems1] at h2
      rw [sumItemPrices_append_ok _ _ _ _ hs1 hpi] at h2
      injection h2 with hom2 hr2
      subst hr2
      subst hom2
      have hts : om.order_total = s := by
        rw [ensured_order_items] at hsA
        rw [hcons] at hsA
        exact Except.ok.inj hsA
      refine ⟨rfl, ?_, ?_, ⟨p, hpi, ?_, ?_⟩, hid1, hid1⟩
      · rw [hitems1', ensured_order_items]
      · rw [hitems1'] <;> rfl
      · rw [htot1]
        omega
      · rw [htot1]
        change T1 + p - T1 = p
        omega

/-- Witness for C8: replaying "meat" x2 from the empty initial state;
each replay appends the same item and adds 170 to the total. -/
theorem c8_add_item_replay_witness :
    (OrderManager.consistent ⟨none, 1⟩
      ∧ OrderManager.add_item ⟨none, 1⟩ "meat" 2 []
          = (⟨some ⟨[⟨"meat", 2, []⟩], "", "", 170, none, none⟩, 1⟩,
             .ok ⟨"meat", 2, []⟩)
      ∧ OrderManager.add_item ⟨some ⟨[⟨"meat", 2, []⟩], "", "", 170, none, none⟩, 1⟩
          "meat" 2 []
          = (⟨some ⟨[⟨"meat", 2, []⟩, ⟨"meat", 2, []⟩], "", "", 340, none, none⟩, 1⟩,
             .ok ⟨"meat", 2, []⟩))
  ∧ (∃ p, OrderManager.calculate_item_price ⟨"meat", 2, []⟩ = .ok p
      ∧ (⟨some ⟨[⟨"meat", 2, []⟩], "", "", 170, none, none⟩, 1⟩ : OrderManager).order_total
          - (⟨none, 1⟩ : OrderManager).order_total = p
      ∧ (⟨some ⟨[⟨"meat", 2, []⟩, ⟨"meat", 2, []⟩], "", "", 340, none, none⟩,
            1⟩ : OrderManager).order_total
          - (⟨some ⟨[⟨"meat", 2, []⟩], "", "", 170, none, none⟩,
              1⟩ : OrderManager).order_total = p) := by
  refine ⟨⟨rfl, by decide, by decide⟩, ?_⟩
  exact (c8_add_item_replay ⟨none, 1⟩
    ⟨some ⟨[⟨"meat", 2, []⟩], "", "", 170, none, none⟩, 1⟩
    ⟨some ⟨[⟨"meat", 2, []⟩, ⟨"meat", 2, []⟩], "", "", 340, none, none⟩, 1⟩
    "meat" 2 [] ⟨"meat", 2, []⟩ (.ok ⟨"meat", 2, []⟩)
    rfl (by decide) (by decide)).2.2.2.1

/-- The extras-name comprehension of the order summary succeeds exactly
when every listed extra is a known extra. -/
theorem extras_names_isOk (l : List String) :
    (extras_names l).isOk = l.all (fun x => (alookup EXTRAS x).isSome) := by
  induction l with
  | nil => rfl
  | cons a l ih =>
    cases h : alookup EXTRAS a with
    | none => simp [extras_names, h, Except.isOk, Except.toBool, Except.toBool]
    | some v =>
      cases hrec : extras_names l with
      | error e =>
        rw [hrec] at ih
        simp only [Except.isOk, Except.toBool, Except.toBool] at ih
        simp [extras_names, h, hrec, Except.isOk, Except.toBool, ← ih]
      | ok ns =>
        rw [hrec] at ih
        simp only [Except.isOk, Except.toBool, Except.toBool] at ih
        simp [extras_names, h, hrec, Except.isOk, Except.toBool, ← ih]

/-- One summary line succeeds exactly when the item type is on the
menu and all its extras are known. -/
theorem item_summary_line_isOk (it : OrderItem) :
    (item_summary_line it).isOk
      = ((alookup SHAWARMA_MENU it.type).isSome
          && it.extras.all (fun x => (alookup EXTRAS x).isSome)) := by
  cases h : alookup SHAWARMA_MENU it.type with
  | none => simp [item_summary_line, h, Except.isOk, Except.toBool, Except.toBool]
  | some mi =>
    have hp : OrderManager.calculate_item_price it
        = .ok (mi.price * it.quantity + extras_price it.extras) := by
      simp [OrderManager.calculate_item_price, h]
    cases hn : extras_names it.extras with
    | error e =>
      have hx := extras_names_isOk it.extras
      rw [hn] at hx
      simp only [Except.isOk, Except.toBool, Except.toBool] at hx
      simp [item_summary_line, h, hp, hn, Except.isOk, Except.toBool, ← hx]
    | ok ns =>
      have hx := extras_names_isOk it.extras
      rw [hn] at hx
      simp only [Except.isOk, Except.toBool, Except.toBool] at hx
      simp [item_summary_line, h, hp, hn, Except.isOk, Except.toBool, ← hx]

/-- The items loop of the summary succeeds exactly when every item is
valid in the above sense. -/
theorem items_summaries_isOk (l : List OrderItem) :
    (items_summaries l).isOk
      = l.all (fun it => (alookup SHAWARMA_MENU it.type).isSome
          && it.extras.all (fun x => (alookup EXTRAS x).isSome)) := by
  induction l with
  | nil => rfl
  | cons a l ih =>
    cases hline : item_summary_line a with
    | error e =>
      have ha := item_summary_line_isOk a
      rw [hline] at ha
      simp only [Except.isOk, Except.toBool, Except.toBool] at ha
      simp [items_summaries, hline, Except.isOk, Except.toBool, ← ha]
    | ok s =>
      have ha := item_summary_line_isOk a
      rw [hline] at ha
      simp only [Except.isOk, Except.toBool, Except.toBool] at ha
      cases hrec : items_summaries l with
      | error e2 =>
        rw [hrec] at ih
        simp only [Except.isOk, Except.toBool, Except.toBool] at ih
        simp [items_summaries, hline, hrec, Except.isOk, Except.toBool, ← ha, ← ih]
      | ok ss =>
        rw [hrec] at ih
        simp only [Except.isOk, Except.toBool, Except.toBool] at ih
        simp [items_summaries, hline, hrec, Except.isOk, Except.toBool, ← ha, ← ih]

/-- C10 (amended): `finalize_order` raises exactly when there is no
active order, the items list is empty, the address or phone is empty,
or -- a case the original claim misses -- some stored item has a type
off the menu or an extra outside `EXTRAS` (reachable, since `add_item`
stores extras unvalidated).  In the first three error cases the state
and the `next_order_id` counter are unchanged; in the invalid-item case
the counter has already been incremented when the summary raises; on
success the counter increments by one and the
`estimated_time` of the confirmation is 15 plus 5 times the sum of the item quantities. -/
theorem c10_finalize_order_characterization (om : OrderManager) :
    (om.current_order = none →
      OrderManager.finalize_order om = (om, .error "No active order"))
  ∧ (∀ o, om.current_order = some o → o.items = [] →
      OrderManager.finalize_order om = (om, .error "Order has no items"))
  ∧ (∀ o, om.current_order = some o → o.items ≠ [] → (o.address = "" ∨ o.phone = "") →
      OrderManager.finalize_order om = (om, .error "Missing delivery information"))
  ∧ (∀ o, om.current_order = some o → o.items ≠ [] → o.address ≠ "" → o.phone ≠ "" →
      order_items_valid o = false →
      ∃ err, OrderManager.finalize_order om
        = ({ om with next_order_id := om.next_order_id + 1 }, .error err))
  ∧ (∀ o, om.current_order = some o → o.items ≠ [] → o.address ≠ "" → o.phone ≠ "" →
      order_items_valid o = true →
      ∃ summary, OrderManager.finalize_order om
        = ({ om with next_order_id := om.next_order_id + 1 },
           .ok { order := o,
                 estimated_time := 15 + 5 * (o.items.map (fun i => i.quantity)).sum,
                 order_summary := summary })) := by
  refine ⟨?_, ?_, ?_, ?_, ?_⟩
  · intro h
    simp [OrderManager.finalize_order, h]
  · intro o ho hi
    simp [OrderManager.finalize_order, ho, hi]
  · intro o ho hi hap
    simp [OrderManager.finalize_order, ho, hi, hap]
  · intro o ho hi ha hp hvalid
    have hbad := items_summaries_isOk o.items
    rw [order_items_valid] at hvalid
    rw [hvalid] at hbad
    cases hs : items_summaries o.items with
    | ok ss =>
      rw [hs] at hbad
      simp only [Except.isOk, Except.toBool] at hbad
      exact Bool.noConfusion hbad
    | error err =>
      refine ⟨err, ?_⟩
      simp [OrderManager.finalize_order, OrderManager.get_order_summary, ho, hi, ha, hp, hs]
  · intro o ho hi ha hp hvalid
    have hgood := items_summaries_isOk o.items
    rw [order_items_valid] at hvalid
    rw [hvalid] at hgood
    cases hs : items_summaries o.items with
    | error err =>
      rw [hs] at hgood
      simp only [Except.isOk, Except.toBool] at hgood
      exact Bool.noConfusion hgood
    | ok ss =>
      cases hsum : OrderManager.get_order_summary
          { om with next_order_id := om.next_order_id + 1 } with
      | error e2 =>
        simp [OrderManager.get_order_summary, ho, hi, hs] at hsum
      | ok summary =>
        rw [show ({ om with next_order_id := om.next_order_id + 1 } : OrderManager)
              = { current_order := some o, next_order_id := om.next_order_id + 1 }
            from by rw [← ho]] at hsum
        refine ⟨summary, ?_⟩
        simp [OrderManager.finalize_order, OrderManager.get_estimated_delivery_time,
          ho, hi, ha, hp, hsum]

/-- Counterexample to C10 as stated: a reachable order (built by
`add_item` with an unvalidated extra and completed by
`set_delivery_info`) has items, an address and a phone, yet
`finalize_order` raises a `KeyError` from the summary -- and the
`next_order_id` counter has already been incremented from 1 to 2 when
it does. -/
theorem c10_finalize_order_counterexample :
    (OrderManager.set_delivery_info
        (OrderManager.add_item ⟨none, 1⟩ "chicken" 1 ["pickles"]).1
        "شارع التحرير 5" "01001234567" none).1
      = ⟨some ⟨[⟨"chicken", 1, ["pickles"]⟩], "شارع التحرير 5", "01001234567", 65,
          none, none⟩, 1⟩
  ∧ (⟨some ⟨[⟨"chicken", 1, ["pickles"]⟩], "شارع التحرير 5", "01001234567", 65,
        none, none⟩, 1⟩ : OrderManager).current_order.isSome = true
  ∧ (⟨some ⟨[⟨"chicken", 1, ["pickles"]⟩], "شارع التحرير 5", "01001234567", 65,
        none, none⟩, 1⟩ : OrderManager).order_items ≠ []
  ∧ OrderManager.finalize_order
        ⟨some ⟨[⟨"chicken", 1, ["pickles"]⟩], "شارع التحرير 5", "01001234567", 65,
          none, none⟩, 1⟩
      = (⟨some ⟨[⟨"chicken", 1, ["pickles"]⟩], "شارع التحرير 5", "01001234567", 65,
           none, none⟩, 2⟩,
         .error "KeyError: pickles") := by
  decide

/-- Witness for the C10 characterisation at the empty manager state. -/
theorem c10_finalize_order_characterization_witness :
    ((⟨none, 1⟩ : OrderManager).current_order = none)
  ∧ OrderManager.finalize_order ⟨none, 1⟩ = (⟨none, 1⟩, .error "No active order") :=
  ⟨rfl, (c10_finalize_order_characterization ⟨none, 1⟩).1 rfl⟩
